import Mathlib

/-!
Verification of the Nutrient & Energy Attribution Engine of the
nutrition-tracker repository (src/app.py), as a shallow embedding in Lean.

Numbers are modelled as rationals; Python `round` (banker's rounding,
round-half-to-even) is modelled by `pyRound` / `roundTo`.  Python strings
are modelled by Lean `String`; `str.lower()` is modelled by the ASCII
lowercase map (all keyword data in the reference tables is ASCII-relevant
lowercase already).  Fallible operations (Python exceptions, in particular
`ZeroDivisionError`) are modelled with `Option`.

Batteries marks the `Rat` field operations irreducible; concrete
evaluation inside proofs needs them transparent again.
-/

set_option allowUnsafeReducibility true

attribute [semireducible] Rat.add Rat.mul Rat.inv Rat.sub Rat.ofScientific

/-- Python `round(q)`: round half to even, returning an integer. -/
def pyRound (q : ℚ) : ℤ :=
  let f := ⌊q⌋
  let frac := q - (f : ℚ)
  if frac < 1/2 then f
  else if 1/2 < frac then f + 1
  else if f % 2 = 0 then f else f + 1

/-- Python `round(q, n)`: round to `n` decimal places (half to even). -/
def roundTo (n : ℕ) (q : ℚ) : ℚ :=
  (pyRound (q * 10 ^ n) : ℚ) / 10 ^ n

theorem pyRound_nonneg {q : ℚ} (h : 0 ≤ q) : 0 ≤ pyRound q := by
  unfold pyRound
  have hf : (0 : ℤ) ≤ ⌊q⌋ := Int.floor_nonneg.mpr h
  dsimp only
  split
  · exact hf
  · split
    · omega
    · split <;> omega

theorem pyRound_le {q : ℚ} {N : ℤ} (h : q ≤ (N : ℚ)) : pyRound q ≤ N := by
  unfold pyRound
  have hf : ⌊q⌋ ≤ N := by
    have := Int.floor_le_floor h
    simpa using this
  dsimp only
  split
  · exact hf
  · -- frac ≥ 1/2, so q ≥ ⌊q⌋ + 1/2, hence ⌊q⌋ < N as integers
    have hq : (⌊q⌋ : ℚ) + 1/2 ≤ q := by
      rename_i hlt
      push_neg at hlt
      linarith
    have : (⌊q⌋ : ℚ) < (N : ℚ) := by linarith
    have hlt : ⌊q⌋ < N := by exact_mod_cast this
    split
    · omega
    · split <;> omega

theorem pyRound_eq_zero {q : ℚ} (h0 : 0 ≤ q) (h1 : q < 1/2) : pyRound q = 0 := by
  have hf : ⌊q⌋ = 0 := by
    rw [Int.floor_eq_zero_iff]
    constructor
    · exact h0
    · linarith
  unfold pyRound
  dsimp only
  rw [hf]
  push_cast
  rw [if_pos (by linarith)]

theorem roundTo_nonneg {n : ℕ} {q : ℚ} (h : 0 ≤ q) : 0 ≤ roundTo n q := by
  unfold roundTo
  have h1 : (0 : ℤ) ≤ pyRound (q * 10 ^ n) :=
    pyRound_nonneg (by positivity)
  have h2 : (0 : ℚ) ≤ (pyRound (q * 10 ^ n) : ℚ) := by exact_mod_cast h1
  positivity

theorem roundTo_le_one {n : ℕ} {q : ℚ} (h : q ≤ 1) : roundTo n q ≤ 1 := by
  unfold roundTo
  have h1 : pyRound (q * 10 ^ n) ≤ (10 : ℤ) ^ n := by
    apply pyRound_le
    push_cast
    nlinarith [pow_pos (show (0:ℚ) < 10 by norm_num) n]
  have h2 : (pyRound (q * 10 ^ n) : ℚ) ≤ (10 : ℚ) ^ n := by exact_mod_cast h1
  rw [div_le_one (by positivity)]
  exact h2

theorem roundTo_one_small {q : ℚ} (h0 : 0 ≤ q) (h1 : q < 1/20) :
    roundTo 1 q = 0 := by
  unfold roundTo
  have : pyRound (q * 10 ^ 1) = 0 := by
    apply pyRound_eq_zero
    · positivity
    · nlinarith
  rw [this]
  norm_num

theorem roundTo_zero (n : ℕ) : roundTo n 0 = 0 := by
  unfold roundTo
  have : pyRound 0 = 0 := pyRound_eq_zero le_rfl (by norm_num)
  simp [this]

/-! ## PortionExtractor: `_extract_grams` (src/app.py lines 486-501)

The three regex patterns are implemented as explicit leftmost-search
scanners over the character list.  In each pattern the trailing group
`(?:\b|[)\s,])` is equivalent to a word-boundary test on the next
character, since `)`, whitespace and `,` are themselves non-word
characters and the character to the left (`g`, `m`/`l`, `L`) is always a
word character.  Greedy matching of `(\d+)` and `\s*` is exact here
because a shorter digit run is followed by a digit (matching neither
`\s` nor the unit letter) and a shorter space run is followed by a space.
Word characters are the ASCII `[A-Za-z0-9_]` of the regex `\b`. -/

def isWordChar (c : Char) : Bool :=
  ('a' ≤ c && c ≤ 'z') || ('A' ≤ c && c ≤ 'Z') || ('0' ≤ c && c ≤ '9') || c = '_'

def isDigitChar (c : Char) : Bool := '0' ≤ c && c ≤ '9'

def isSpaceChar (c : Char) : Bool := c.isWhitespace

/-- Numeric value of a digit run, as Python `int(...)` of the group. -/
def digitsVal (l : List Char) : ℕ :=
  l.foldl (fun a c => a * 10 + (c.toNat - '0'.toNat)) 0

/-- `(?:\b|[)\s,])` after a word character: next char absent or non-word. -/
def boundaryAfter : List Char → Bool
  | [] => true
  | c :: _ => !(isWordChar c)

/-- Try `(\d+)\s*g(?:ram)?(?:\b|[)\s,])` anchored at this position. -/
def matchGAt (l : List Char) : Option ℕ :=
  let ds := l.takeWhile isDigitChar
  if ds.isEmpty then none
  else
    let rest := (l.drop ds.length).dropWhile isSpaceChar
    match rest with
    | 'g' :: r2 =>
      match r2 with
      | 'r' :: 'a' :: 'm' :: r3 =>
        if boundaryAfter r3 then some (digitsVal ds)
        else if boundaryAfter r2 then some (digitsVal ds)
        else none
      | _ => if boundaryAfter r2 then some (digitsVal ds) else none
    | _ => none

/-- Try `(\d+)\s*ml\b` anchored at this position. -/
def matchMlAt (l : List Char) : Option ℕ :=
  let ds := l.takeWhile isDigitChar
  if ds.isEmpty then none
  else
    let rest := (l.drop ds.length).dropWhile isSpaceChar
    match rest with
    | 'm' :: 'l' :: r2 => if boundaryAfter r2 then some (digitsVal ds) else none
    | _ => none

/-- Try `(\d+)\s*EL\b` (IGNORECASE) anchored at this position; the text is
already lowercased, so the unit reads `el`. -/
def matchElAt (l : List Char) : Option ℕ :=
  let ds := l.takeWhile isDigitChar
  if ds.isEmpty then none
  else
    let rest := (l.drop ds.length).dropWhile isSpaceChar
    match rest with
    | 'e' :: 'l' :: r2 => if boundaryAfter r2 then some (digitsVal ds) else none
    | _ => none

/-- `re.search` for the grams pattern: leftmost matching position. -/
def searchG : List Char → Option ℕ
  | [] => none
  | c :: t =>
    match matchGAt (c :: t) with
    | some n => some n
    | none => searchG t

def searchMl : List Char → Option ℕ
  | [] => none
  | c :: t =>
    match matchMlAt (c :: t) with
    | some n => some n
    | none => searchMl t

def searchEl : List Char → Option ℕ
  | [] => none
  | c :: t =>
    match matchElAt (c :: t) with
    | some n => some n
    | none => searchEl t

/-- Python `str.lower()` restricted to ASCII (`Char.toLower`). -/
def lowerStr (s : String) : String := String.mk (s.data.map Char.toLower)

/-- `_extract_grams(desc)` (src/app.py 486-501): grams from the first of
the three patterns that matches anywhere in the description, `EL`
(tablespoon) counting 20 g each; `none` when no pattern matches. -/
def extract_grams (desc : String) : Option ℚ :=
  let dl := (lowerStr desc).data
  match searchG dl with
  | some n => some ((n : ℚ))
  | none =>
    match searchMl dl with
    | some n => some ((n : ℚ))
    | none =>
      match searchEl dl with
      | some n => some ((n : ℚ) * 20)
      | none => none

/-- Division as Python performs it: `ZeroDivisionError` becomes `none`. -/
def safeDiv (a b : ℚ) : Option ℚ := if b = 0 then none else some (a / b)

/-- The grams figure the caller uses (src/app.py 586-588): the extracted
quantity, or the food's reference portion when extraction found none. -/
def gramsUsed (desc : String) (portion_g : ℚ) : ℚ :=
  (extract_grams desc).getD portion_g

/-- `scale = grams / food['portion_g']` (src/app.py 590); the division is
not guarded, so a zero reference portion is a `ZeroDivisionError`. -/
def scaleFor (desc : String) (portion_g : ℚ) : Option ℚ :=
  safeDiv (gramsUsed desc portion_g) portion_g

/-! ## FoodKeywordMatcher (src/app.py lines 562-590)

`food_nutrients` rows carry the keyword string exactly as stored in the
table (comma-separated); the matcher splits, strips and lowercases the
keywords, lowercases each description, and records for every
(food, description) pair at most one candidate — the first keyword in
listed order whose lowercase form is a substring of the lowercase
description (`break` after the first hit).  Candidates are then sorted
by keyword length descending and deduplicated per
(description index, food name) with a visited set. -/

structure FoodRecord where
  food_name : String
  keywords : String
  portion_g : ℚ
  amounts : List (String × ℚ)
deriving DecidableEq

/-- `food[key] if key in food.keys() else 0` (src/app.py 596). -/
def amountOf (food : FoodRecord) (key : String) : ℚ :=
  ((food.amounts.find? (fun p => p.1 = key)).map Prod.snd).getD 0

structure Candidate where
  idx : ℕ
  food : FoodRecord
  kwLen : ℕ
deriving DecidableEq

/-- Python `str.split(',')`: split on every comma. -/
def splitOnComma : List Char → List (List Char)
  | [] => [[]]
  | c :: rest =>
    match splitOnComma rest with
    | [] => [[c]]
    | g :: gs => if c = ',' then [] :: g :: gs else (c :: g) :: gs

/-- Python `str.strip()`: drop whitespace at both ends. -/
def stripChars (l : List Char) : List Char :=
  ((l.dropWhile isSpaceChar).reverse.dropWhile isSpaceChar).reverse

/-- `[kw.strip().lower() for kw in food['keywords'].split(',')]` (line 567). -/
def splitKeywords (s : String) : List String :=
  (splitOnComma s.data).map (fun kw => String.mk ((stripChars kw).map Char.toLower))

/-- The inner `for kw in keywords: if kw in desc_lower: ...; break`
(lines 570-573): the first keyword contained in the lowered description. -/
def keywordMatch (food : FoodRecord) (descLower : String) : Option String :=
  (splitKeywords food.keywords).find? (fun kw => decide (kw.data <:+: descLower.data))

/-- `for i, (desc, _) in enumerate(all_descs)` for one food: one candidate
per description whose lowercase form contains some keyword. -/
def descMatches (food : FoodRecord) : List String → ℕ → List Candidate
  | [], _ => []
  | d :: rest, i =>
    match keywordMatch food (lowerStr d) with
    | some kw => ⟨i, food, kw.length⟩ :: descMatches food rest (i + 1)
    | none => descMatches food rest (i + 1)

/-- The candidate list built by the double loop (lines 565-573). -/
def genCandidates (foods : List FoodRecord) (descs : List String) : List Candidate :=
  (foods.map (fun food => descMatches food descs 0)).flatten

/-- `candidates.sort(key=lambda x: -x[2])` (line 575): stable sort by
keyword length descending, implemented as a stable insertion sort (an
element is inserted after every earlier element of greater or equal
keyword length, which is exactly Python's stable descending sort). -/
def insertCand (c : Candidate) : List Candidate → List Candidate
  | [] => [c]
  | d :: rest => if c.kwLen < d.kwLen then d :: insertCand c rest else c :: d :: rest

def sortCandidates (l : List Candidate) : List Candidate :=
  l.foldr insertCand []

/-- The dedup loop over `matched_pairs` (lines 577-582): keep a candidate
only if its (description index, food name) pair was not seen before. -/
def dedupLoop : List Candidate → List (ℕ × String) → List Candidate
  | [], _ => []
  | c :: rest, seen =>
    if (c.idx, c.food.food_name) ∈ seen then dedupLoop rest seen
    else c :: dedupLoop rest ((c.idx, c.food.food_name) :: seen)

/-- The deduplicated, specificity-sorted match candidates actually
processed by the aggregation loop. -/
def matchCandidates (foods : List FoodRecord) (descs : List String) : List Candidate :=
  dedupLoop (sortCandidates (genCandidates foods descs)) []

/-- The (description index, food name) pairs of a candidate list. -/
def pairsOf (l : List Candidate) : List (ℕ × String) :=
  l.map (fun c => (c.idx, c.food.food_name))

/-! ## NutrientAggregator (src/app.py lines 508-534 and 578-602) -/

/-- The per-candidate contribution to `food_totals[key]` (lines 583-598):
`val = (food[key] if key in food.keys() else 0) * scale`, added when
`val > 0`.  The unguarded `grams / food['portion_g']` makes this `none`
(Python `ZeroDivisionError`) when the reference portion is zero. -/
def foodContrib (key : String) (descs : List String) (c : Candidate) : Option ℚ :=
  let desc := descs.getD c.idx ""
  match scaleFor desc c.food.portion_g with
  | none => none
  | some scale =>
    let val := amountOf c.food key * scale
    some (if 0 < val then val else 0)

/-- Accumulation loop for one substance key over the deduplicated
candidates; an exception anywhere aborts the computation (`none`). -/
def accumContribs (key : String) (descs : List String)
    (cands : List Candidate) (acc : ℚ) : Option ℚ :=
  match cands with
  | [] => some acc
  | c :: rest =>
    match foodContrib key descs c with
    | none => none
    | some v => accumContribs key descs rest (acc + v)

/-- `food_totals[key]` for the given date's descriptions and food table. -/
def foodTotals (key : String) (foods : List FoodRecord) (descs : List String) : Option ℚ :=
  accumContribs key descs (matchCandidates foods descs) 0

/-- One row of `supplement_intake` joined with `supplements`
(src/app.py 516-521). -/
structure IntakeRow where
  supplement_id : ℕ
  dose_slot : String
  taken : Bool
  date : String
  name : String
deriving DecidableEq

/-- The nested `SUPPLEMENT_NUTRIENTS[sid][slot][key]` lookup guarded by
`if sid in SUPPLEMENT_NUTRIENTS and slot in SUPPLEMENT_NUTRIENTS[sid]`
and `if nutrient_key in supp_totals` (lines 527-531); a missing level
contributes nothing. -/
def doseAmount (snMap : List (ℕ × List (String × List (String × ℚ))))
    (sid : ℕ) (slot : String) (key : String) : ℚ :=
  match (snMap.find? (fun p => p.1 = sid)).map Prod.snd with
  | none => 0
  | some slots =>
    match (slots.find? (fun p => p.1 = slot)).map Prod.snd with
    | none => 0
    | some nutrients =>
      match (nutrients.find? (fun p => p.1 = key)).map Prod.snd with
      | none => 0
      | some a => a

/-- `supp_totals[key]` (lines 508-531): the SQL filter
`WHERE si.date = ? AND si.taken = 1` followed by the accumulation loop. -/
def fromSupplements (snMap : List (ℕ × List (String × List (String × ℚ))))
    (rows : List IntakeRow) (d : String) (key : String) : ℚ :=
  (rows.filter (fun r => r.date = d && r.taken)).foldl
    (fun acc r => acc + doseAmount snMap r.supplement_id r.dose_slot key) 0

/-! ## SubstanceStatusEvaluator and report assembly (src/app.py 604-661) -/

structure SubstDef where
  name : String
  key : String
  unit : String
  min : ℚ
  max : ℚ
deriving DecidableEq

/-- The status/severity branch (src/app.py 636-647), before the final
3-decimal rounding of line 660. -/
def evalStatusSeverity (mn mx total : ℚ) : String × ℚ :=
  if total ≤ 0 then ("none", 0)
  else if total < mn then
    ("low", if 0 < mn then min 1 ((mn - total) / mn) else 0)
  else if mx < total then
    ("high", if 0 < mx then min 1 ((total - mx) / mx) else 0)
  else ("optimal", 0)

/-- Status together with the reported severity `round(severity, 3)`. -/
def statusSeverityOf (mn mx total : ℚ) : String × ℚ :=
  ((evalStatusSeverity mn mx total).1, roundTo 3 (evalStatusSeverity mn mx total).2)

/-- One entry of the response payload (src/app.py 649-661), minus the
human-readable source list. -/
structure SubstReport where
  name : String
  key : String
  unit : String
  optimal_min : ℚ
  optimal_max : ℚ
  from_supplements : ℚ
  from_food : ℚ
  total : ℚ
  status : String
  severity : ℚ
deriving DecidableEq

/-- Assembly of one substance entry (src/app.py 606-661) from the
full-precision accumulated totals: the three fields are rounded to one
decimal here and nowhere earlier, and status/severity are computed from
the rounded `total`. -/
def assembleSubstance (s : SubstDef) (suppRaw foodRaw : ℚ) : SubstReport :=
  let from_supp := roundTo 1 suppRaw
  let from_food := roundTo 1 foodRaw
  let total := roundTo 1 (from_supp + from_food)
  { name := s.name, key := s.key, unit := s.unit,
    optimal_min := s.min, optimal_max := s.max,
    from_supplements := from_supp, from_food := from_food, total := total,
    status := (statusSeverityOf s.min s.max total).1,
    severity := (statusSeverityOf s.min s.max total).2 }

/-! ## WorkoutZoneCalculator: `calc_workout_calories` (src/app.py 860-905)

`date.today().year` is an external input and appears as the
`currentYear` parameter; `BIRTH_YEAR = 1971` (line 826).  Python
truthiness of `active_energy_kj` and `avg_hr` (`None` and `0` are both
falsy) is modelled by `Option` plus an explicit zero test. -/

structure WorkoutResult where
  kcal_burned : ℤ
  fat_g_burned : ℚ
  kh_g_burned : ℚ
  fat_pct : ℤ
  kh_pct : ℤ
  zone : ℕ
  zone_label : String
  hr_max : ℤ
  avg_hr : Option ℚ
deriving DecidableEq

def BIRTH_YEAR : ℤ := 1971

/-- The heart-rate-zone if-chain (src/app.py 879-888): fat share,
carbohydrate share, zone index and label from the heart-rate percentage. -/
def zoneSelect (hr_pct : ℚ) : ℚ × ℚ × ℕ × String :=
  if hr_pct < 60 then (0.70, 0.30, 1, "Grundlagen (Fettverbrennung)")
  else if hr_pct < 70 then (0.60, 0.40, 2, "Fettverbrennung")
  else if hr_pct < 80 then (0.50, 0.50, 3, "Aerob (Mischzone)")
  else if hr_pct < 90 then (0.25, 0.75, 4, "Anaerob (KH-dominant)")
  else (0.10, 0.90, 5, "Maximalkraft")

def calc_workout_calories (currentYear : ℤ) (active_energy_kj : Option ℚ)
    (avg_hr : Option ℚ) : WorkoutResult :=
  let age := currentYear - BIRTH_YEAR
  let hr_max : ℤ := 220 - age
  let kcal_burned : ℤ :=
    match active_energy_kj with
    | none => 0
    | some e => if e = 0 then 0 else pyRound (e / (4184/1000))
  let z : ℚ × ℚ × ℕ × String :=
    match avg_hr with
    | none => (1/2, 1/2, 3, "Mischzone")
    | some h =>
      if h = 0 then (1/2, 1/2, 3, "Mischzone")
      else zoneSelect (h / (hr_max : ℚ) * 100)
  let fat_pct := z.1
  let kh_pct := z.2.1
  let fat_kcal := (kcal_burned : ℚ) * fat_pct
  let kh_kcal := (kcal_burned : ℚ) * kh_pct
  { kcal_burned := kcal_burned,
    fat_g_burned := roundTo 1 (fat_kcal / 9),
    kh_g_burned := roundTo 1 (kh_kcal / 4),
    fat_pct := pyRound (fat_pct * 100),
    kh_pct := pyRound (kh_pct * 100),
    zone := z.2.2.1,
    zone_label := z.2.2.2,
    hr_max := hr_max,
    avg_hr := avg_hr }

/-! ## Static reference data

`food_nutrients` rows as seeded by `init_food_nutrients` (src/app.py
180-192) plus the rows inserted by `migrate_caffeine` (src/app.py
209-216); on a fresh database the `LIKE`-guard inserts all six caffeine
rows and the two `UPDATE`s touch no seeded row.  Only the nonzero
amounts are listed; `amountOf` supplies the column default 0. -/

def FOOD_NUTRIENTS : List FoodRecord := [
  { food_name := "Lachs", keywords := "lachs,salmon,lachspuffer,lachsfilet",
    portion_g := 150,
    amounts := [("omega3_epa_dha_mg", 3000), ("vitamin_d_iu", 750), ("selen_ug", 45)] },
  { food_name := "Makrele", keywords := "makrele,mackerel", portion_g := 150,
    amounts := [("omega3_epa_dha_mg", 3750), ("vitamin_d_iu", 600), ("selen_ug", 60)] },
  { food_name := "Forelle", keywords := "forelle,trout", portion_g := 150,
    amounts := [("omega3_epa_dha_mg", 1500), ("vitamin_d_iu", 450), ("selen_ug", 30)] },
  { food_name := "Sardinen", keywords := "sardine,sardinen", portion_g := 100,
    amounts := [("omega3_epa_dha_mg", 2000), ("vitamin_d_iu", 400), ("selen_ug", 40)] },
  { food_name := "Tomatenmark", keywords := "tomatenmark,tomato paste",
    portion_g := 50, amounts := [("lycopin_mg", 17)] },
  { food_name := "Tomate frisch", keywords := "tomate,tomaten,cherry tomate",
    portion_g := 100, amounts := [("lycopin_mg", 2.5)] },
  { food_name := "Granatapfelsaft", keywords := "granatapfelsaft,pomegranate",
    portion_g := 200, amounts := [("lycopin_mg", 1), ("punicalagin_mg", 800)] },
  { food_name := "Paranuss", keywords := "paranuss,paranüsse,brazil nut",
    portion_g := 10, amounts := [("selen_ug", 90)] },
  { food_name := "Walnüsse", keywords := "walnuss,walnüsse,walnut",
    portion_g := 30, amounts := [("omega3_epa_dha_mg", 450)] },
  { food_name := "Kürbiskerne", keywords := "kürbiskern,pumpkin seed",
    portion_g := 30, amounts := [("zink_mg", 2.1)] },
  { food_name := "Edamame", keywords := "edamame", portion_g := 100,
    amounts := [("zink_mg", 1.4)] },
  { food_name := "Kaffee schwarz",
    keywords := "kaffee schwarz,kaffee,coffee,kaffeeschwarz", portion_g := 200,
    amounts := [("caffeine_mg", 90)] },
  { food_name := "Espresso", keywords := "espresso", portion_g := 30,
    amounts := [("caffeine_mg", 65)] },
  { food_name := "Kaffee mit Milch",
    keywords := "kaffee mit milch,kaffee mit hafermilch,kaffee milch",
    portion_g := 200, amounts := [("caffeine_mg", 85)] },
  { food_name := "Grüner Tee Getränk", keywords := "grüner tee,green tea,grüntee",
    portion_g := 200, amounts := [("caffeine_mg", 35)] },
  { food_name := "Vitals Grüner Tee-PS Kapsel", keywords := "grüner tee-ps,tee-ps",
    portion_g := 1, amounts := [("caffeine_mg", 22)] },
  { food_name := "Schwarzer Tee", keywords := "schwarzer tee,black tea",
    portion_g := 200, amounts := [("caffeine_mg", 50)] }]

/-- `SUPPLEMENT_NUTRIENTS` (src/app.py 432-464). -/
def SUPPLEMENT_NUTRIENTS : List (ℕ × List (String × List (String × ℚ))) := [
  (8, [("morning", [("egcg_mg", 300), ("caffeine_mg", 44)]),
       ("evening", [("egcg_mg", 150), ("caffeine_mg", 22)])]),
  (4, [("noon", [("omega3_epa_dha_mg", 300)])]),
  (6, [("evening", [("zink_mg", 30)])]),
  (7, [("evening", [("selen_ug", 100)])]),
  (3, [("morning", [("curcumin_mg", 250), ("boswellia_mg", 150), ("vitamin_d_iu", 400)]),
       ("evening", [("curcumin_mg", 250), ("boswellia_mg", 150), ("vitamin_d_iu", 400)])]),
  (9, [("noon", [("vitamin_d_iu", 4000)])]),
  (5, [("evening", [("boswellia_mg", 100), ("monacolin_k_mg", 2.95), ("ubiquinol_mg", 100)])]),
  (1, [("morning", [("kuerbiskern_mg", 250), ("saegpalme_mg", 160), ("beta_sitosterol_mg", 65), ("pygeum_mg", 50)]),
       ("evening", [("kuerbiskern_mg", 250), ("saegpalme_mg", 160), ("beta_sitosterol_mg", 65), ("pygeum_mg", 50)])]),
  (2, [("morning", [("silymarin_mg", 140)]),
       ("evening", [("silymarin_mg", 140)])])]

/-- `PROSTATE_SUBSTANCES` (src/app.py 466-482), without the notes. -/
def PROSTATE_SUBSTANCES : List SubstDef := [
  { name := "EGCG", key := "egcg_mg", unit := "mg", min := 400, max := 800 },
  { name := "Lycopin", key := "lycopin_mg", unit := "mg", min := 10, max := 30 },
  { name := "Zink", key := "zink_mg", unit := "mg", min := 15, max := 30 },
  { name := "Selen", key := "selen_ug", unit := "μg", min := 100, max := 200 },
  { name := "Curcumin", key := "curcumin_mg", unit := "mg", min := 500, max := 1500 },
  { name := "Boswelliasäuren", key := "boswellia_mg", unit := "mg", min := 300, max := 500 },
  { name := "Omega-3 EPA/DHA", key := "omega3_epa_dha_mg", unit := "mg", min := 1000, max := 3000 },
  { name := "Vitamin D3", key := "vitamin_d_iu", unit := "IU", min := 2000, max := 4000 },
  { name := "Punicalagin", key := "punicalagin_mg", unit := "mg", min := 500, max := 1500 },
  { name := "Kürbiskern-Extrakt", key := "kuerbiskern_mg", unit := "mg", min := 500, max := 500 },
  { name := "Sägepalme", key := "saegpalme_mg", unit := "mg", min := 160, max := 320 },
  { name := "Beta-Sitosterol", key := "beta_sitosterol_mg", unit := "mg", min := 60, max := 130 },
  { name := "Pygeum africanum", key := "pygeum_mg", unit := "mg", min := 100, max := 200 },
  { name := "Silymarin 🛡️", key := "silymarin_mg", unit := "mg", min := 200, max := 400 },
  { name := "Koffein/Teein", key := "caffeine_mg", unit := "mg", min := 300, max := 400 }]

/-! ## Matcher lemmas -/

theorem mem_descMatches (food : FoodRecord) :
    ∀ (l : List String) (n : ℕ) (c : Candidate),
    c ∈ descMatches food l n ↔
      ∃ j d kw, l[j]? = some d ∧ keywordMatch food (lowerStr d) = some kw ∧
        c = ⟨n + j, food, kw.length⟩ := by
  intro l
  induction l with
  | nil => intro n c; simp [descMatches]
  | cons d t ih =>
    intro n c
    cases h : keywordMatch food (lowerStr d) with
    | some kw0 =>
      have hunf : descMatches food (d :: t) n =
          ⟨n, food, kw0.length⟩ :: descMatches food t (n + 1) := by
        rw [descMatches, h]
      rw [hunf, List.mem_cons, ih (n + 1) c]
      constructor
      · rintro (rfl | ⟨j, dd, kw, hj, hk, rfl⟩)
        · exact ⟨0, d, kw0, by simp, h, by simp⟩
        · refine ⟨j + 1, dd, kw, by simpa using hj, hk, ?_⟩
          have : n + 1 + j = n + (j + 1) := by omega
          rw [this]
      · rintro ⟨j, dd, kw, hj, hk, rfl⟩
        cases j with
        | zero =>
          simp only [List.getElem?_cons_zero, Option.some.injEq] at hj
          subst hj
          rw [h] at hk
          injection hk with hkk
          subst hkk
          left
          simp
        | succ j2 =>
          right
          refine ⟨j2, dd, kw, by simpa using hj, hk, ?_⟩
          have : n + (j2 + 1) = n + 1 + j2 := by omega
          rw [this]
    | none =>
      have hunf : descMatches food (d :: t) n = descMatches food t (n + 1) := by
        rw [descMatches, h]
      rw [hunf, ih (n + 1) c]
      constructor
      · rintro ⟨j, dd, kw, hj, hk, rfl⟩
        refine ⟨j + 1, dd, kw, by simpa using hj, hk, ?_⟩
        have : n + 1 + j = n + (j + 1) := by omega
        rw [this]
      · rintro ⟨j, dd, kw, hj, hk, rfl⟩
        cases j with
        | zero =>
          simp only [List.getElem?_cons_zero, Option.some.injEq] at hj
          subst hj
          rw [h] at hk
          cases hk
        | succ j2 =>
          refine ⟨j2, dd, kw, by simpa using hj, hk, ?_⟩
          have : n + (j2 + 1) = n + 1 + j2 := by omega
          rw [this]

theorem mem_genCandidates {foods : List FoodRecord} {descs : List String}
    {c : Candidate} :
    c ∈ genCandidates foods descs ↔
      ∃ food ∈ foods, c ∈ descMatches food descs 0 := by
  unfold genCandidates
  rw [List.mem_flatten]
  constructor
  · rintro ⟨l, hl, hc⟩
    obtain ⟨food, hfood, rfl⟩ := List.mem_map.mp hl
    exact ⟨food, hfood, hc⟩
  · rintro ⟨food, hfood, hc⟩
    exact ⟨descMatches food descs 0, List.mem_map.mpr ⟨food, hfood, rfl⟩, hc⟩

theorem mem_of_mem_dedupLoop :
    ∀ (l : List Candidate) (seen : List (ℕ × String)) (c : Candidate),
    c ∈ dedupLoop l seen → c ∈ l := by
  intro l
  induction l with
  | nil => intro seen c h; simp [dedupLoop] at h
  | cons a rest ih =>
    intro seen c h
    rw [dedupLoop] at h
    split at h
    · exact List.mem_cons_of_mem _ (ih _ _ h)
    · rcases List.mem_cons.mp h with rfl | h2
      · exact List.mem_cons_self _ _
      · exact List.mem_cons_of_mem _ (ih _ _ h2)

theorem pairs_dedupLoop_mem :
    ∀ (l : List Candidate) (seen : List (ℕ × String)) (p : ℕ × String),
    p ∈ pairsOf (dedupLoop l seen) ↔ p ∈ pairsOf l ∧ p ∉ seen := by
  intro l
  induction l with
  | nil => intro seen p; simp [dedupLoop, pairsOf]
  | cons c rest ih =>
    intro seen p
    rw [dedupLoop]
    split
    · rename_i hseen
      rw [ih seen p]
      simp only [pairsOf, List.map_cons, List.mem_cons]
      constructor
      · rintro ⟨h1, h2⟩; exact ⟨Or.inr h1, h2⟩
      · rintro ⟨h1 | h1, h2⟩
        · exact absurd (h1 ▸ hseen) h2
        · exact ⟨h1, h2⟩
    · rename_i hseen
      simp only [pairsOf, List.map_cons, List.mem_cons]
      rw [show (List.map (fun c => (c.idx, c.food.food_name)) (dedupLoop rest ((c.idx, c.food.food_name) :: seen))) = pairsOf (dedupLoop rest ((c.idx, c.food.food_name) :: seen)) from rfl]
      rw [ih]
      simp only [pairsOf, List.mem_cons]
      constructor
      · rintro (rfl | ⟨h1, h2⟩)
        · exact ⟨Or.inl rfl, hseen⟩
        · push_neg at h2
          exact ⟨Or.inr h1, h2.2⟩
      · rintro ⟨h1 | h1, h2⟩
        · exact Or.inl h1
        · by_cases hp : p = (c.idx, c.food.food_name)
          · exact Or.inl hp
          · exact Or.inr ⟨h1, by simp [hp, h2]⟩

theorem pairs_dedupLoop_nodup :
    ∀ (l : List Candidate) (seen : List (ℕ × String)),
    (pairsOf (dedupLoop l seen)).Nodup := by
  intro l
  induction l with
  | nil => intro seen; simp [dedupLoop, pairsOf]
  | cons c rest ih =>
    intro seen
    rw [dedupLoop]
    split
    · exact ih seen
    · simp only [pairsOf, List.map_cons, List.nodup_cons]
      constructor
      · intro hmem
        have := (pairs_dedupLoop_mem rest _ _).mp hmem
        simp at this
      · exact ih _

theorem insertCand_perm (c : Candidate) (l : List Candidate) :
    (insertCand c l).Perm (c :: l) := by
  induction l with
  | nil => rfl
  | cons d rest ih =>
    rw [insertCand]
    split
    · exact (ih.cons d).trans (List.Perm.swap c d rest)
    · exact List.Perm.refl _

theorem sortCandidates_perm (l : List Candidate) : (sortCandidates l).Perm l := by
  induction l with
  | nil => rfl
  | cons c rest ih =>
    exact (insertCand_perm c (sortCandidates rest)).trans (ih.cons c)

theorem pairs_sortCandidates_mem (l : List Candidate) (p : ℕ × String) :
    p ∈ pairsOf (sortCandidates l) ↔ p ∈ pairsOf l := by
  unfold pairsOf
  exact ((sortCandidates_perm l).map _).mem_iff

theorem pairs_matchCandidates_mem (foods : List FoodRecord) (descs : List String)
    (i : ℕ) (nm : String) :
    (i, nm) ∈ pairsOf (matchCandidates foods descs) ↔
      ∃ d, descs[i]? = some d ∧ ∃ food ∈ foods, food.food_name = nm ∧
        ∃ kw ∈ splitKeywords food.keywords, kw.data <:+: (lowerStr d).data := by
  unfold matchCandidates
  rw [pairs_dedupLoop_mem, pairs_sortCandidates_mem]
  simp only [List.not_mem_nil, not_false_iff, and_true]
  constructor
  · intro hp
    obtain ⟨c, hc, hpair⟩ := List.mem_map.mp hp
    obtain ⟨food, hfood, hcd⟩ := mem_genCandidates.mp hc
    obtain ⟨j, d, kw, hj, hk, rfl⟩ := (mem_descMatches food descs 0 c).mp hcd
    simp only [Nat.zero_add, Prod.mk.injEq] at hpair
    obtain ⟨rfl, rfl⟩ := hpair
    refine ⟨d, hj, food, hfood, rfl, kw, ?_, ?_⟩
    · exact List.mem_of_find?_eq_some hk
    · have := List.find?_some hk
      simpa using this
  · rintro ⟨d, hd, food, hfood, rfl, kw, hkwmem, hinf⟩
    have hsome : (keywordMatch food (lowerStr d)).isSome := by
      rw [keywordMatch, List.find?_isSome]
      exact ⟨kw, hkwmem, by simpa using hinf⟩
    obtain ⟨kw0, hk0⟩ := Option.isSome_iff_exists.mp hsome
    have hmem : (⟨0 + i, food, kw0.length⟩ : Candidate) ∈ descMatches food descs 0 :=
      (mem_descMatches food descs 0 _).mpr ⟨i, d, kw0, hd, hk0, rfl⟩
    refine List.mem_map.mpr ⟨⟨0 + i, food, kw0.length⟩, ?_, by simp⟩
    exact mem_genCandidates.mpr ⟨food, hfood, hmem⟩

/-- Claim C1: keyword matching is case-insensitive (both keyword and text
are lowercased) and substring-based, and deduplication of match
candidates is per (text source index, food name) only: a pair occurs in
the processed candidate list iff some keyword of the food is contained
in the lowercase text, each pair at most once however many keywords of
the food match; the text source "Lachs und Edamame, 150g" contributes
both Lachs and Edamame exactly once each, and "LACHSFILET" matches the
keyword "lachs". -/
theorem c1_keyword_matching (foods : List FoodRecord) (descs : List String)
    (i : ℕ) (nm : String) :
    (pairsOf (matchCandidates foods descs)).Nodup ∧
    ((i, nm) ∈ pairsOf (matchCandidates foods descs) ↔
      ∃ d, descs[i]? = some d ∧ ∃ food ∈ foods, food.food_name = nm ∧
        ∃ kw ∈ splitKeywords food.keywords, kw.data <:+: (lowerStr d).data) ∧
    pairsOf (matchCandidates FOOD_NUTRIENTS ["Lachs und Edamame, 150g"]) =
      [(0, "Edamame"), (0, "Lachs")] ∧
    pairsOf (matchCandidates FOOD_NUTRIENTS ["LACHSFILET"]) = [(0, "Lachs")] :=
  ⟨pairs_dedupLoop_nodup _ _, pairs_matchCandidates_mem foods descs i nm,
   by decide, by decide⟩

/-! ## Evaluator lemmas -/

theorem evalStatusSeverity_bounds (mn mx total : ℚ) :
    0 ≤ (evalStatusSeverity mn mx total).2 ∧ (evalStatusSeverity mn mx total).2 ≤ 1 := by
  unfold evalStatusSeverity
  split
  · simp
  · split
    · rename_i h0 h1
      push_neg at h0
      split
      · rename_i hmn
        constructor
        · simp only
          exact le_min (by norm_num) (div_nonneg (by linarith) (le_of_lt hmn))
        · exact min_le_left _ _
      · simp
    · split
      · rename_i h0 h1 h2
        push_neg at h0 h1
        split
        · rename_i hmx
          constructor
          · simp only
            exact le_min (by norm_num) (div_nonneg (by linarith) (le_of_lt hmx))
          · exact min_le_left _ _
        · simp
      · simp

theorem statusSeverityOf_bounds (mn mx total : ℚ) :
    0 ≤ (statusSeverityOf mn mx total).2 ∧ (statusSeverityOf mn mx total).2 ≤ 1 := by
  obtain ⟨h0, h1⟩ := evalStatusSeverity_bounds mn mx total
  exact ⟨roundTo_nonneg h0, roundTo_le_one h1⟩

/-- Claim C2: the evaluator implements the classification table exactly,
read in order: total ≤ 0 is `none` with severity 0; 0 < total < min is
`low` with severity round(min(1, (min − total)/min), 3); min ≤ total ≤ max
(boundaries inclusive) is `optimal` with severity 0; total > max is `high`
with severity round(min(1, (total − max)/max), 3) (0 when the bound is not
positive); the reported severity always lies in [0, 1]; and min = 400,
max = 800, total = 300 yields `low` with severity 0.25. -/
theorem c2_status_severity_table (mn mx total : ℚ) (hband : mn ≤ mx) :
    (total ≤ 0 → statusSeverityOf mn mx total = ("none", 0)) ∧
    (0 < total → total < mn →
      statusSeverityOf mn mx total = ("low", roundTo 3 (min 1 ((mn - total) / mn)))) ∧
    (0 < total → mn ≤ total → total ≤ mx →
      statusSeverityOf mn mx total = ("optimal", 0)) ∧
    (0 < total → mx < total →
      statusSeverityOf mn mx total =
        ("high", roundTo 3 (if 0 < mx then min 1 ((total - mx) / mx) else 0))) ∧
    0 ≤ (statusSeverityOf mn mx total).2 ∧ (statusSeverityOf mn mx total).2 ≤ 1 ∧
    statusSeverityOf 400 800 300 = ("low", 1/4) := by
  refine ⟨?_, ?_, ?_, ?_, (statusSeverityOf_bounds mn mx total).1,
    (statusSeverityOf_bounds mn mx total).2, by decide⟩
  · intro h
    rw [statusSeverityOf, evalStatusSeverity, if_pos h]
    simp [roundTo_zero]
  · intro h0 h1
    have hmn : 0 < mn := lt_trans h0 h1
    rw [statusSeverityOf, evalStatusSeverity, if_neg (by linarith), if_pos h1,
      if_pos hmn]
  · intro h0 h1 h2
    rw [statusSeverityOf, evalStatusSeverity, if_neg (by linarith),
      if_neg (by linarith), if_neg (by linarith)]
    simp [roundTo_zero]
  · intro h0 h1
    rw [statusSeverityOf, evalStatusSeverity, if_neg (by linarith),
      if_neg (by linarith), if_pos h1]

/-- Witness for C2 at min = 400, max = 800, total = 300. -/
theorem c2_status_severity_table_witness :
    statusSeverityOf 400 800 300 = ("low", 1/4) ∧ (400 : ℚ) ≤ 800 :=
  ⟨(c2_status_severity_table 400 800 300 (by norm_num)).2.2.2.2.2.2, by norm_num⟩

/-! ## Aggregation lemmas -/

theorem accumContribs_eq_sum (key : String) (descs : List String) :
    ∀ (cands : List Candidate) (acc t : ℚ),
    accumContribs key descs cands acc = some t →
    t = acc + (cands.map (fun c => (foodContrib key descs c).getD 0)).sum := by
  intro cands
  induction cands with
  | nil =>
    intro acc t h
    rw [accumContribs] at h
    injection h with h
    simp [h]
  | cons c rest ih =>
    intro acc t h
    rw [accumContribs] at h
    cases hc : foodContrib key descs c with
    | none => rw [hc] at h; cases h
    | some v =>
      rw [hc] at h
      have := ih (acc + v) t h
      rw [this]
      simp only [List.map_cons, List.sum_cons, hc, Option.getD_some]
      ring

theorem foldl_add_eq_sum {α : Type} (f : α → ℚ) :
    ∀ (l : List α) (a : ℚ), l.foldl (fun acc r => acc + f r) a = a + (l.map f).sum := by
  intro l
  induction l with
  | nil => intro a; simp
  | cons x rest ih =>
    intro a
    rw [List.foldl_cons, ih]
    simp only [List.map_cons, List.sum_cons]
    ring

/-- Claim C3: the reported fields of every substance entry satisfy
total = round(from_supplements + from_food, 1); the from_* fields are the
1-decimal roundings of the raw accumulated totals; and both accumulators
are exact full-precision sums of their per-source contributions — no
rounding happens before assembly. -/
theorem c3_total_is_rounded_sum (s : SubstDef) (suppRaw foodRaw : ℚ) :
    (assembleSubstance s suppRaw foodRaw).total =
      roundTo 1 ((assembleSubstance s suppRaw foodRaw).from_supplements +
        (assembleSubstance s suppRaw foodRaw).from_food) ∧
    (assembleSubstance s suppRaw foodRaw).from_supplements = roundTo 1 suppRaw ∧
    (assembleSubstance s suppRaw foodRaw).from_food = roundTo 1 foodRaw ∧
    (∀ (key : String) (foods : List FoodRecord) (descs : List String) (t : ℚ),
      foodTotals key foods descs = some t →
      t = ((matchCandidates foods descs).map
        (fun c => (foodContrib key descs c).getD 0)).sum) ∧
    (∀ (snMap : List (ℕ × List (String × List (String × ℚ))))
        (rows : List IntakeRow) (d key : String),
      fromSupplements snMap rows d key =
        ((rows.filter (fun r => r.date = d && r.taken)).map
          (fun r => doseAmount snMap r.supplement_id r.dose_slot key)).sum) := by
  refine ⟨rfl, rfl, rfl, ?_, ?_⟩
  · intro key foods descs t h
    have := accumContribs_eq_sum key descs (matchCandidates foods descs) 0 t h
    simpa using this
  · intro snMap rows d key
    have := foldl_add_eq_sum (fun r : IntakeRow =>
      doseAmount snMap r.supplement_id r.dose_slot key)
      (rows.filter (fun r => r.date = d && r.taken)) 0
    simpa [fromSupplements] using this

/-- Witness for C3: a concrete computed food total equals the exact sum of
its contributions. -/
theorem c3_total_is_rounded_sum_witness :
    foodTotals "omega3_epa_dha_mg" (FOOD_NUTRIENTS.take 1) ["Lachsfilet 300g"] =
      some 6000 ∧
    (6000 : ℚ) = ((matchCandidates (FOOD_NUTRIENTS.take 1) ["Lachsfilet 300g"]).map
      (fun c => (foodContrib "omega3_epa_dha_mg" ["Lachsfilet 300g"] c).getD 0)).sum :=
  ⟨by decide,
   (c3_total_is_rounded_sum ⟨"EGCG", "egcg_mg", "mg", 400, 800⟩ 0 0).2.2.2.1
     "omega3_epa_dha_mg" (FOOD_NUTRIENTS.take 1) ["Lachsfilet 300g"] 6000 (by decide)⟩

/-! ## Safety lemmas (C4) -/

theorem food_mem_of_mem_matchCandidates {foods : List FoodRecord}
    {descs : List String} {c : Candidate} (h : c ∈ matchCandidates foods descs) :
    c.food ∈ foods := by
  have h1 : c ∈ sortCandidates (genCandidates foods descs) :=
    mem_of_mem_dedupLoop _ _ _ h
  have h2 : c ∈ genCandidates foods descs :=
    (sortCandidates_perm (genCandidates foods descs)).subset h1
  obtain ⟨food, hfood, hcd⟩ := mem_genCandidates.mp h2
  obtain ⟨j, d, kw, hj, hk, rfl⟩ := (mem_descMatches food descs 0 c).mp hcd
  exact hfood

theorem foodContrib_isSome {key : String} {descs : List String} {c : Candidate}
    (h : c.food.portion_g ≠ 0) : (foodContrib key descs c).isSome = true := by
  simp [foodContrib, scaleFor, safeDiv, h]

theorem accumContribs_isSome (key : String) (descs : List String) :
    ∀ (cands : List Candidate) (acc : ℚ),
    (∀ c ∈ cands, (foodContrib key descs c).isSome = true) →
    (accumContribs key descs cands acc).isSome = true := by
  intro cands
  induction cands with
  | nil => intro acc h; rw [accumContribs]; rfl
  | cons c rest ih =>
    intro acc h
    rw [accumContribs]
    cases hc : foodContrib key descs c with
    | none =>
      have := h c (List.mem_cons_self _ _)
      rw [hc] at this
      cases this
    | some v => exact ih (acc + v) (fun d hd => h d (List.mem_cons_of_mem _ hd))

/-- Food record with a zero reference portion: feeding it to the
aggregation loop reaches the unguarded `grams / food['portion_g']` of
src/app.py line 590, a Python `ZeroDivisionError`. -/
def zeroPortionFood : FoodRecord :=
  { food_name := "NullFood", keywords := "null", portion_g := 0,
    amounts := [("zink_mg", 1)] }

/-- Claim C4 counterexample: it is not true that matching, aggregation and
evaluation succeed on every input — a food record whose reference portion
is zero makes the aggregation divide by zero (src/app.py line 590 has no
guard), so the Python code raises `ZeroDivisionError` there: the
Option-valued embedding returns `none` on the concrete input
(key "zink_mg", foods [zeroPortionFood], texts ["null 100g"]). -/
theorem c4_no_error_counterexample :
    ¬ ∀ (key : String) (foods : List FoodRecord) (descs : List String),
        (foodTotals key foods descs).isSome = true :=
  fun h => absurd (h "zink_mg" [zeroPortionFood] ["null 100g"]) (by decide)

/-- Claim C4 (amended): matching and evaluation raise no error, and the
band-bound divisions of the evaluator are guarded (severity is defined and
in [0, 1] even when a bound is zero); aggregation raises no error whenever
every food record's reference portion is nonzero — but the reference
portion division itself is not guarded, so the claim's zero-portion case
is exactly the one that fails. -/
theorem c4_no_error_when_portions_nonzero (key : String)
    (foods : List FoodRecord) (descs : List String)
    (hpos : ∀ f ∈ foods, f.portion_g ≠ 0) :
    (foodTotals key foods descs).isSome = true ∧
    ∀ mn mx total : ℚ,
      0 ≤ (statusSeverityOf mn mx total).2 ∧ (statusSeverityOf mn mx total).2 ≤ 1 := by
  constructor
  · apply accumContribs_isSome
    intro c hc
    exact foodContrib_isSome (hpos c.food (food_mem_of_mem_matchCandidates hc))
  · intro mn mx total
    exact statusSeverityOf_bounds mn mx total

/-- Witness for the amended C4 on the real food table. -/
theorem c4_no_error_when_portions_nonzero_witness :
    (foodTotals "zink_mg" FOOD_NUTRIENTS ["Edamame 200g"]).isSome = true :=
  (c4_no_error_when_portions_nonzero "zink_mg" FOOD_NUTRIENTS ["Edamame 200g"]
    (by decide)).1

/-! ## Supplement aggregation (C5) -/

theorem fromSupplements_eq_sum (snMap : List (ℕ × List (String × List (String × ℚ))))
    (rows : List IntakeRow) (d key : String) :
    fromSupplements snMap rows d key =
      ((rows.filter (fun r => r.date = d && r.taken)).map
        (fun r => doseAmount snMap r.supplement_id r.dose_slot key)).sum := by
  simpa [fromSupplements] using
    foldl_add_eq_sum (fun r : IntakeRow => doseAmount snMap r.supplement_id r.dose_slot key)
      (rows.filter (fun r => r.date = d && r.taken)) 0

/-- Claim C5: for every substance key, from_supplements is the sum, over
exactly the intake rows of the requested date flagged taken, of the
amount the supplement-nutrient map assigns to that key under the row's
(supplement_id, dose_slot); an untaken row contributes nothing, and so
does a row whose supplement_id or dose_slot is absent from the map. -/
theorem c5_from_supplements (snMap : List (ℕ × List (String × List (String × ℚ))))
    (rows : List IntakeRow) (d key : String) :
    fromSupplements snMap rows d key =
      ((rows.filter (fun r => r.date = d && r.taken)).map
        (fun r => doseAmount snMap r.supplement_id r.dose_slot key)).sum ∧
    (∀ r : IntakeRow, r.taken = false →
      fromSupplements snMap (r :: rows) d key = fromSupplements snMap rows d key) ∧
    (∀ r : IntakeRow, snMap.find? (fun p => p.1 = r.supplement_id) = none →
      fromSupplements snMap (r :: rows) d key = fromSupplements snMap rows d key) ∧
    (∀ (r : IntakeRow) (slots : List (String × List (String × ℚ))),
      (snMap.find? (fun p => p.1 = r.supplement_id)).map Prod.snd = some slots →
      slots.find? (fun p => p.1 = r.dose_slot) = none →
      fromSupplements snMap (r :: rows) d key = fromSupplements snMap rows d key) := by
  refine ⟨fromSupplements_eq_sum snMap rows d key, ?_, ?_, ?_⟩
  · intro r h
    rw [fromSupplements_eq_sum, fromSupplements_eq_sum, List.filter_cons]
    simp [h]
  · intro r h
    rw [fromSupplements_eq_sum, fromSupplements_eq_sum, List.filter_cons]
    split
    · simp [doseAmount, h]
    · rfl
  · intro r slots h1 h2
    rw [fromSupplements_eq_sum, fromSupplements_eq_sum, List.filter_cons]
    split
    · simp [doseAmount, h1, h2]
    · rfl

/-- Witness for C5: an untaken evening Zink dose contributes nothing, a
taken one contributes the mapped 30 mg. -/
theorem c5_from_supplements_witness :
    fromSupplements SUPPLEMENT_NUTRIENTS
      [⟨6, "evening", false, "2026-01-01", "Zink"⟩,
       ⟨6, "evening", true, "2026-01-01", "Zink"⟩] "2026-01-01" "zink_mg" =
      fromSupplements SUPPLEMENT_NUTRIENTS
        [⟨6, "evening", true, "2026-01-01", "Zink"⟩] "2026-01-01" "zink_mg" ∧
    fromSupplements SUPPLEMENT_NUTRIENTS
      [⟨6, "evening", true, "2026-01-01", "Zink"⟩] "2026-01-01" "zink_mg" = 30 :=
  ⟨(c5_from_supplements SUPPLEMENT_NUTRIENTS
      [⟨6, "evening", true, "2026-01-01", "Zink"⟩] "2026-01-01" "zink_mg").2.1
      ⟨6, "evening", false, "2026-01-01", "Zink"⟩ rfl,
   by decide⟩

/-- Claim C6: the portion extractor applies the three patterns with
first-match-wins precedence — the integer before `g` (optionally followed
by `ram`, then a boundary) as grams; else the integer before `ml` as
grams; else the integer before case-insensitive `EL` times 20; when none
matches it returns no quantity and the caller uses the matched food's
reference portion exactly, a scale factor of 1. -/
theorem c6_extract_grams_precedence (desc : String) (pg : ℚ) (hpg : pg ≠ 0) :
    (∀ n : ℕ, searchG (lowerStr desc).data = some n →
      extract_grams desc = some ((n : ℚ))) ∧
    (searchG (lowerStr desc).data = none → ∀ n : ℕ,
      searchMl (lowerStr desc).data = some n →
      extract_grams desc = some ((n : ℚ))) ∧
    (searchG (lowerStr desc).data = none → searchMl (lowerStr desc).data = none →
      ∀ n : ℕ, searchEl (lowerStr desc).data = some n →
      extract_grams desc = some ((n : ℚ) * 20)) ∧
    (searchG (lowerStr desc).data = none → searchMl (lowerStr desc).data = none →
      searchEl (lowerStr desc).data = none → extract_grams desc = none) ∧
    (extract_grams desc = none →
      gramsUsed desc pg = pg ∧ scaleFor desc pg = some 1) := by
  refine ⟨?_, ?_, ?_, ?_, ?_⟩
  · intro n h; rw [extract_grams, h]
  · intro h1 n h2; rw [extract_grams, h1, h2]
  · intro h1 h2 n h3; rw [extract_grams, h1, h2, h3]
  · intro h1 h2 h3; rw [extract_grams, h1, h2, h3]
  · intro h
    have hg : gramsUsed desc pg = pg := by rw [gramsUsed, h]; rfl
    refine ⟨hg, ?_⟩
    rw [scaleFor, hg, safeDiv, if_neg hpg, div_self hpg]

/-- Witness for C6: a `g` match, an `EL` match behind the precedence
hypotheses, and the no-quantity fallback giving scale 1. -/
theorem c6_extract_grams_precedence_witness :
    extract_grams "Poke Bowl 150g" = some 150 ∧
    extract_grams "3 EL Olivenöl" = some ((3 : ℚ) * 20) ∧
    scaleFor "Brot" 100 = some 1 :=
  ⟨(c6_extract_grams_precedence "Poke Bowl 150g" 100 (by norm_num)).1 150 (by decide),
   (c6_extract_grams_precedence "3 EL Olivenöl" 100 (by norm_num)).2.2.1
     (by decide) (by decide) 3 (by decide),
   ((c6_extract_grams_precedence "Brot" 100 (by norm_num)).2.2.2.2 (by decide)).2⟩

/-- Claim C7 counterexample: the code's guard is truthiness, not `> 0` —
a present negative energy figure is truthy, so kcal_burned is its rounded
conversion, not the 0 the claim requires: active_energy_kj = −418.4 gives
kcal_burned = −100 ≠ 0 although −418.4 is not greater than 0. -/
theorem c7_kcal_counterexample :
    (calc_workout_calories 2025 (some (-2092/5)) none).kcal_burned = -100 ∧
    ¬ ((0 : ℚ) < -2092/5) ∧ ((-100 : ℤ) ≠ 0) :=
  ⟨by decide, by norm_num, by decide⟩

/-- Claim C7 (amended): kcal_burned = round(energy_kj / 4.184) whenever the
energy figure is present and nonzero (in particular whenever it is
positive), and 0 when it is absent or zero; active_energy_kj = 800 gives
round(800/4.184) = 191. -/
theorem c7_kcal_formula (currentYear : ℤ) (avg_hr : Option ℚ) :
    (∀ e : ℚ, e ≠ 0 →
      (calc_workout_calories currentYear (some e) avg_hr).kcal_burned =
        pyRound (e / (4184/1000))) ∧
    (calc_workout_calories currentYear (some 0) avg_hr).kcal_burned = 0 ∧
    (calc_workout_calories currentYear none avg_hr).kcal_burned = 0 ∧
    (calc_workout_calories currentYear (some 800) avg_hr).kcal_burned = 191 := by
  refine ⟨?_, ?_, ?_, ?_⟩
  · intro e he
    simp [calc_workout_calories, he]
  · simp [calc_workout_calories]
  · simp [calc_workout_calories]
  · have h800 : (800 : ℚ) ≠ 0 := by norm_num
    simp only [calc_workout_calories, if_neg h800]
    decide

/-- Witness for the amended C7 at active_energy_kj = 800. -/
theorem c7_kcal_formula_witness :
    (calc_workout_calories 2025 (some 800) none).kcal_burned =
      pyRound ((800 : ℚ) / (4184/1000)) :=
  (c7_kcal_formula 2025 none).1 800 (by norm_num)

theorem zoneSelect_cases (p : ℚ) :
    (p < 60 → zoneSelect p = (0.70, 0.30, 1, "Grundlagen (Fettverbrennung)")) ∧
    (60 ≤ p → p < 70 → zoneSelect p = (0.60, 0.40, 2, "Fettverbrennung")) ∧
    (70 ≤ p → p < 80 → zoneSelect p = (0.50, 0.50, 3, "Aerob (Mischzone)")) ∧
    (80 ≤ p → p < 90 → zoneSelect p = (0.25, 0.75, 4, "Anaerob (KH-dominant)")) ∧
    (90 ≤ p → zoneSelect p = (0.10, 0.90, 5, "Maximalkraft")) := by
  refine ⟨?_, ?_, ?_, ?_, ?_⟩
  · intro h60
    rw [zoneSelect, if_pos h60]
  · intro h60 h70
    rw [zoneSelect, if_neg (not_lt.mpr h60), if_pos h70]
  · intro h70 h80
    rw [zoneSelect, if_neg (not_lt.mpr (by linarith)), if_neg (not_lt.mpr h70),
      if_pos h80]
  · intro h80 h90
    rw [zoneSelect, if_neg (not_lt.mpr (by linarith)), if_neg (not_lt.mpr (by linarith)),
      if_neg (not_lt.mpr h80), if_pos h90]
  · intro h90
    rw [zoneSelect, if_neg (not_lt.mpr (by linarith)), if_neg (not_lt.mpr (by linarith)),
      if_neg (not_lt.mpr (by linarith)), if_neg (not_lt.mpr h90)]

/-- Claim C8 counterexample: a present average heart rate of 0 has
hr_pct = 0 < 60, so the claim's table demands zone 1, but the truthiness
guard `if avg_hr:` routes 0 to the default zone 3. -/
theorem c8_zone_counterexample :
    (calc_workout_calories 2025 none (some 0)).zone = 3 ∧
    (0 : ℚ) / ((calc_workout_calories 2025 none (some 0)).hr_max : ℚ) * 100 < 60 ∧
    (3 : ℕ) ≠ 1 := by
  refine ⟨by decide, ?_, by decide⟩
  have : (calc_workout_calories 2025 none (some 0)).hr_max = 166 := by decide
  rw [this]
  norm_num

/-- Claim C8 (amended): for a present nonzero average heart rate the zone
calculator assigns, from hr_pct = avg_hr / hr_max × 100: zone 1 (70% fat /
30% carb) when hr_pct < 60, zone 2 (60/40) when 60 ≤ hr_pct < 70, zone 3
(50/50) when 70 ≤ hr_pct < 80, zone 4 (25/75) when 80 ≤ hr_pct < 90,
zone 5 (10/90) when hr_pct ≥ 90; an absent (or zero) average heart rate
defaults to zone 3 with a 50/50 split; with hr_max = 166 (current year
2025), avg_hr = 90 gives zone 1 and avg_hr = 100 gives zone 2. -/
theorem c8_zone_table (currentYear : ℤ) (e : Option ℚ) :
    (∀ h : ℚ, h ≠ 0 →
      (h / (((220 - (currentYear - BIRTH_YEAR)) : ℤ) : ℚ) * 100 < 60 →
        (calc_workout_calories currentYear e (some h)).zone = 1 ∧
        (calc_workout_calories currentYear e (some h)).fat_pct = 70 ∧
        (calc_workout_calories currentYear e (some h)).kh_pct = 30) ∧
      (60 ≤ h / (((220 - (currentYear - BIRTH_YEAR)) : ℤ) : ℚ) * 100 →
        h / (((220 - (currentYear - BIRTH_YEAR)) : ℤ) : ℚ) * 100 < 70 →
        (calc_workout_calories currentYear e (some h)).zone = 2 ∧
        (calc_workout_calories currentYear e (some h)).fat_pct = 60 ∧
        (calc_workout_calories currentYear e (some h)).kh_pct = 40) ∧
      (70 ≤ h / (((220 - (currentYear - BIRTH_YEAR)) : ℤ) : ℚ) * 100 →
        h / (((220 - (currentYear - BIRTH_YEAR)) : ℤ) : ℚ) * 100 < 80 →
        (calc_workout_calories currentYear e (some h)).zone = 3 ∧
        (calc_workout_calories currentYear e (some h)).fat_pct = 50 ∧
        (calc_workout_calories currentYear e (some h)).kh_pct = 50) ∧
      (80 ≤ h / (((220 - (currentYear - BIRTH_YEAR)) : ℤ) : ℚ) * 100 →
        h / (((220 - (currentYear - BIRTH_YEAR)) : ℤ) : ℚ) * 100 < 90 →
        (calc_workout_calories currentYear e (some h)).zone = 4 ∧
        (calc_workout_calories currentYear e (some h)).fat_pct = 25 ∧
        (calc_workout_calories currentYear e (some h)).kh_pct = 75) ∧
      (90 ≤ h / (((220 - (currentYear - BIRTH_YEAR)) : ℤ) : ℚ) * 100 →
        (calc_workout_calories currentYear e (some h)).zone = 5 ∧
        (calc_workout_calories currentYear e (some h)).fat_pct = 10 ∧
        (calc_workout_calories currentYear e (some h)).kh_pct = 90)) ∧
    ((calc_workout_calories currentYear e none).zone = 3 ∧
     (calc_workout_calories currentYear e none).fat_pct = 50 ∧
     (calc_workout_calories currentYear e none).kh_pct = 50) ∧
    ((calc_workout_calories 2025 e (some 90)).zone = 1 ∧
     (calc_workout_calories 2025 e (some 100)).zone = 2 ∧
     (calc_workout_calories 2025 e (some 90)).hr_max = 166) := by
  refine ⟨?_, ⟨?_, ?_, ?_⟩, ⟨?_, ?_, ?_⟩⟩
  · intro h hne
    refine ⟨?_, ?_, ?_, ?_, ?_⟩
    · intro h60
      have hz := (zoneSelect_cases (h / (((220 - (currentYear - BIRTH_YEAR)) : ℤ) : ℚ) * 100)).1 h60
      refine ⟨?_, ?_, ?_⟩ <;>
        simp only [calc_workout_calories, if_neg hne, hz] <;> decide
    · intro h60 h70
      have hz := ((zoneSelect_cases (h / (((220 - (currentYear - BIRTH_YEAR)) : ℤ) : ℚ) * 100)).2.1) h60 h70
      refine ⟨?_, ?_, ?_⟩ <;>
        simp only [calc_workout_calories, if_neg hne, hz] <;> decide
    · intro h70 h80
      have hz := ((zoneSelect_cases (h / (((220 - (currentYear - BIRTH_YEAR)) : ℤ) : ℚ) * 100)).2.2.1) h70 h80
      refine ⟨?_, ?_, ?_⟩ <;>
        simp only [calc_workout_calories, if_neg hne, hz] <;> decide
    · intro h80 h90
      have hz := ((zoneSelect_cases (h / (((220 - (currentYear - BIRTH_YEAR)) : ℤ) : ℚ) * 100)).2.2.2.1) h80 h90
      refine ⟨?_, ?_, ?_⟩ <;>
        simp only [calc_workout_calories, if_neg hne, hz] <;> decide
    · intro h90
      have hz := ((zoneSelect_cases (h / (((220 - (currentYear - BIRTH_YEAR)) : ℤ) : ℚ) * 100)).2.2.2.2) h90
      refine ⟨?_, ?_, ?_⟩ <;>
        simp only [calc_workout_calories, if_neg hne, hz] <;> decide
  · simp [calc_workout_calories]
  · simp only [calc_workout_calories]; decide
  · simp only [calc_workout_calories]; decide
  · have hne : (90 : ℚ) ≠ 0 := by norm_num
    have h60 : (90 : ℚ) / (((220 - (2025 - BIRTH_YEAR)) : ℤ) : ℚ) * 100 < 60 := by
      norm_num [BIRTH_YEAR]
    have hz := (zoneSelect_cases ((90 : ℚ) / (((220 - (2025 - BIRTH_YEAR)) : ℤ) : ℚ) * 100)).1 h60
    simp only [calc_workout_calories, if_neg hne, hz]
  · have hne : (100 : ℚ) ≠ 0 := by norm_num
    have h60 : (60 : ℚ) ≤ (100 : ℚ) / (((220 - (2025 - BIRTH_YEAR)) : ℤ) : ℚ) * 100 := by
      norm_num [BIRTH_YEAR]
    have h70 : (100 : ℚ) / (((220 - (2025 - BIRTH_YEAR)) : ℤ) : ℚ) * 100 < 70 := by
      norm_num [BIRTH_YEAR]
    have hz := ((zoneSelect_cases ((100 : ℚ) / (((220 - (2025 - BIRTH_YEAR)) : ℤ) : ℚ) * 100)).2.1) h60 h70
    simp only [calc_workout_calories, if_neg hne, hz]
  · simp [calc_workout_calories, BIRTH_YEAR]

/-- Witness for the amended C8 at avg_hr = 90, current year 2025. -/
theorem c8_zone_table_witness :
    (calc_workout_calories 2025 none (some 90)).zone = 1 ∧
    (calc_workout_calories 2025 none (some 90)).fat_pct = 70 ∧
    (calc_workout_calories 2025 none (some 90)).kh_pct = 30 :=
  ((c8_zone_table 2025 none).1 90 (by norm_num)).1 (by norm_num [BIRTH_YEAR])

/-- Claim C9: status and severity are computed from the already-rounded
total — whenever the exact raw intake from_supplements + from_food is
strictly between 0 and 0.05, the report shows total 0.0 with status
`none` and severity 0 although the raw intake is positive. -/
theorem c9_status_from_rounded_total (s : SubstDef) (suppRaw foodRaw : ℚ)
    (h1 : 0 ≤ suppRaw) (h2 : 0 ≤ foodRaw)
    (_h3 : 0 < suppRaw + foodRaw) (h4 : suppRaw + foodRaw < 1/20) :
    (assembleSubstance s suppRaw foodRaw).total = 0 ∧
    (assembleSubstance s suppRaw foodRaw).status = "none" ∧
    (assembleSubstance s suppRaw foodRaw).severity = 0 := by
  have hs : roundTo 1 suppRaw = 0 := roundTo_one_small h1 (by linarith)
  have hf : roundTo 1 foodRaw = 0 := roundTo_one_small h2 (by linarith)
  have ht : roundTo 1 (roundTo 1 suppRaw + roundTo 1 foodRaw) = 0 := by
    rw [hs, hf]
    simpa using roundTo_one_small le_rfl (by norm_num)
  refine ⟨ht, ?_, ?_⟩
  · show (statusSeverityOf s.min s.max (roundTo 1 (roundTo 1 suppRaw + roundTo 1 foodRaw))).1 = "none"
    rw [ht, statusSeverityOf, evalStatusSeverity, if_pos le_rfl]
  · show (statusSeverityOf s.min s.max (roundTo 1 (roundTo 1 suppRaw + roundTo 1 foodRaw))).2 = 0
    rw [ht, statusSeverityOf, evalStatusSeverity, if_pos le_rfl]
    exact roundTo_zero 3

/-- Witness for C9 with raw intake 0.01 + 0.01 = 0.02 ∈ (0, 0.05). -/
theorem c9_status_from_rounded_total_witness :
    (assembleSubstance ⟨"EGCG", "egcg_mg", "mg", 400, 800⟩ (1/100) (1/100)).total = 0 ∧
    (assembleSubstance ⟨"EGCG", "egcg_mg", "mg", 400, 800⟩ (1/100) (1/100)).status = "none" :=
  ⟨(c9_status_from_rounded_total ⟨"EGCG", "egcg_mg", "mg", 400, 800⟩ (1/100) (1/100)
      (by norm_num) (by norm_num) (by norm_num) (by norm_num)).1,
   (c9_status_from_rounded_total ⟨"EGCG", "egcg_mg", "mg", 400, 800⟩ (1/100) (1/100)
      (by norm_num) (by norm_num) (by norm_num) (by norm_num)).2.1⟩

/-- Claim C10: an average heart rate equal to 0 is treated like an absent
one — the calculator returns the zone 3 default with a 50/50 split (the
same zone fields as the absent case), not the zone 1 that hr_pct = 0
would select. -/
theorem c10_zero_hr_default (currentYear : ℤ) (e : Option ℚ) :
    (calc_workout_calories currentYear e (some 0)).zone = 3 ∧
    (calc_workout_calories currentYear e (some 0)).fat_pct = 50 ∧
    (calc_workout_calories currentYear e (some 0)).kh_pct = 50 ∧
    (calc_workout_calories currentYear e (some 0)).zone_label = "Mischzone" ∧
    (calc_workout_calories currentYear e (some 0)).zone =
      (calc_workout_calories currentYear e none).zone ∧
    (calc_workout_calories currentYear e (some 0)).fat_g_burned =
      (calc_workout_calories currentYear e none).fat_g_burned ∧
    (calc_workout_calories currentYear e (some 0)).kh_g_burned =
      (calc_workout_calories currentYear e none).kh_g_burned ∧
    (calc_workout_calories currentYear e (some 0)).zone ≠ 1 := by
  refine ⟨by simp [calc_workout_calories], ?_, ?_, by simp [calc_workout_calories],
    by simp [calc_workout_calories], by simp [calc_workout_calories],
    by simp [calc_workout_calories], by simp [calc_workout_calories]⟩
  · simp [calc_workout_calories]; decide
  · simp [calc_workout_calories]; decide
